import Mathlib

/-!
Shallow embedding of the plan-driven multi-agent orchestration engine of
billsoft/magentic-ui, as laid out in the repository's design documents:

* `src/unnamed/part_008` — the orchestrator refactor design: the Python
  classes `ExecutionController`, `WebSearchValidator`,
  `ImageGenerationValidator`, `SmartAgentAllocator` and the enhanced
  execution-control prompt;
* `src/unnamed/part_006` — the boundary configuration file
  (`task_boundaries` with per-category limits and a `default` entry);
* `src/comprehensive_refactor_plan.md` — `StepExecutionManager.execute_step`
  and `ConfigDrivenBoundaryController`;
* `src/workflow_fixes_summary.md` — the quoted fragment of the orchestrator's
  `_is_step_truly_complete` together with the loop-forced completion message
  emitted by the WebSurfer;
* `src/unnamed/part_009` (CLAUDE.md) — the documented `current_step_idx`
  state management of `_orchestrator.py`.

Python strings are embedded as `String`, the `in` substring test as `pyIn`,
`str.lower()` as `pyLower` (ASCII case folding, which is all `.lower()` does
on the ASCII/Chinese texts appearing in these documents), dicts as
association lists with Python `dict` update semantics, and the mutable
controller objects as explicit state records threaded through the step
functions.  Components whose Python bodies do not appear anywhere in the
repository are modelled from the natural-language specification and are
marked `Modelled from the spec:` in their doc comments.
-/

namespace MagenticUI

/-- Python substring search on char lists: `subAt n h` is true when `n`
occurs contiguously in `h`. -/
def subAt (needle : List Char) : List Char → Bool
  | [] => needle.isEmpty
  | b :: bs => needle.isPrefixOf (b :: bs) || subAt needle bs

/-- Embedding of the Python expression `needle in hay` on strings. -/
def pyIn (needle hay : String) : Bool := subAt needle.data hay.data

/-- Embedding of Python `any(n in hay for n in needles)`, the idiom every
validator and the allocator use for their keyword lists. -/
def anyIn (needles : List String) (hay : String) : Bool :=
  needles.any (fun n => pyIn n hay)

/-- Embedding of Python `s.lower()`: ASCII case folding character by
character (identity on the Chinese characters of the source texts). -/
def pyLower (s : String) : String := ⟨s.data.map Char.toLower⟩

/-- Step descriptor dictionary as consumed by `ExecutionController` and
`SmartAgentAllocator` in part_008: `step_info['agent_name']`,
`step_info['title']`, `step_info['details']`. -/
structure StepInfo where
  agent_name : String
  title : String
  details : String
deriving Repr, DecidableEq

/-- The `ExecutionResult` objects produced in part_008.  The source also
attaches optional payloads (`extracted_data`, `image_info`) computed by
helper methods whose bodies are not in the repository; no claim concerns
those payloads, so only the `success`/`reason`/`action` fields are kept. -/
structure ExecutionResult where
  success : Bool
  reason : String
  action : Option String
deriving Repr, DecidableEq

/-- Completion-signal list of `WebSearchValidator.validate_completion`
(part_008 lines 89-93). -/
def completion_signals : List String :=
  ["✅ 任务已完成", "✅ TASK COMPLETED",
   "⚠️ 任务因错误完成", "⚠️ TASK COMPLETED WITH ERRORS",
   "🔄 任务通过替代方案完成", "🔄 TASK COMPLETED VIA ALTERNATIVE"]

/-- Useful-information indicator list of `WebSearchValidator`
(part_008 line 96). -/
def info_indicators : List String := ["产品", "相机", "规格", "功能", "特点"]

/-- Generic/deflecting reply patterns of `WebSearchValidator`
(part_008 line 109). -/
def generic_responses : List String :=
  ["我理解您需要", "Let me help you", "我可以帮助您"]

/-- Embedding of `WebSearchValidator.validate_completion` (part_008 lines
87-117).  The `step_info` argument is received but, exactly as in the
source body, never consulted. -/
def WebSearchValidator.validate_completion (_step_info : StepInfo)
    (agent_response : String) : ExecutionResult :=
  let has_completion_signal := anyIn completion_signals agent_response
  let has_useful_info := anyIn info_indicators agent_response
  if has_completion_signal && has_useful_info then
    ⟨true, "网络搜索任务已完成，获取到有效信息", none⟩
  else if anyIn generic_responses agent_response then
    ⟨false, "检测到通用回复，任务未完成", some "retry_with_enhanced_instruction"⟩
  else
    ⟨false, "未检测到明确的完成信号", none⟩

/-- Completion-signal list of `ImageGenerationValidator.validate_completion`
(part_008 lines 124-128). -/
def image_completion_signals : List String :=
  ["图像生成任务已完成", "image generation complete",
   "图像已成功生成", "successfully generated",
   "生成完成", "generation completed"]

/-- Image-file indicator list of `ImageGenerationValidator`
(part_008 line 131). -/
def image_indicators : List String :=
  [".png", ".jpg", ".jpeg", "image", "图像", "图片"]

/-- Embedding of `ImageGenerationValidator.validate_completion` (part_008
lines 122-143): approval is the disjunction of a completion signal and an
image-file reference.  As in the source, `step_info` is never consulted and
no case folding is applied to the response. -/
def ImageGenerationValidator.validate_completion (_step_info : StepInfo)
    (agent_response : String) : ExecutionResult :=
  let has_completion_signal := anyIn image_completion_signals agent_response
  let has_image_reference := anyIn image_indicators agent_response
  if has_completion_signal || has_image_reference then
    ⟨true, "图像生成任务已完成", none⟩
  else
    ⟨false, "图像生成未完成", none⟩

/-- Modelled from the spec: the bodies of `DocumentCreationValidator`,
`FormatConversionValidator` and `DefaultValidator`, selected by
`ExecutionController._get_validator` (part_008 lines 71-76), are not in the
repository.  Per spec §4.2(d) a validator rejects absent a category-specific
completion signal and approves when one is present; the category signals are
the ones listed in the enhanced execution-control prompt (part_008 lines
295-297) and in CLAUDE.md ("文档创建任务已完成", "HTML转换完成", "PDF生成完成"). -/
def document_creation_signals : List String :=
  ["文档创建任务已完成", "document creation completed"]

/-- Modelled from the spec: format-conversion completion signals, from the
same sources as `document_creation_signals`. -/
def format_conversion_signals : List String :=
  ["HTML转换完成", "PDF生成完成", "转换完成", "conversion completed"]

/-- Validator identities dispatched by `ExecutionController._get_validator`
(part_008 lines 22-27 and 62-76). -/
inductive Validator where
  | web_search
  | image_generation
  | document_creation
  | format_conversion
  | default_validator
deriving Repr, DecidableEq

/-- Embedding of `ExecutionController._get_validator` (part_008 lines
62-76): dispatch on the agent name, then on keywords of the lower-cased
step details, falling back to `DefaultValidator`. -/
def ExecutionController.get_validator (step_info : StepInfo) : Validator :=
  let step_content := pyLower step_info.details
  if step_info.agent_name = "web_surfer" then .web_search
  else if step_info.agent_name = "image_generator" then .image_generation
  else if pyIn "markdown" step_content || pyIn "文档" step_content then
    .document_creation
  else if pyIn "html" step_content || pyIn "pdf" step_content then
    .format_conversion
  else .default_validator

/-- Runs the validator selected by `_get_validator`.  The two validator
bodies present in the repository are embedded above; the remaining three are
modelled from the spec (see `document_creation_signals`): approve exactly
when a category completion signal is present. -/
def runValidator : Validator → StepInfo → String → ExecutionResult
  | .web_search, si, r => WebSearchValidator.validate_completion si r
  | .image_generation, si, r => ImageGenerationValidator.validate_completion si r
  | .document_creation, _, r =>
      if anyIn document_creation_signals r then ⟨true, "文档创建任务已完成", none⟩
      else ⟨false, "文档创建未完成", none⟩
  | .format_conversion, _, r =>
      if anyIn format_conversion_signals r then ⟨true, "格式转换任务已完成", none⟩
      else ⟨false, "格式转换未完成", none⟩
  | .default_validator, _, r =>
      if anyIn completion_signals r then ⟨true, "任务已完成", none⟩
      else ⟨false, "未检测到明确的完成信号", none⟩

/-- One entry of `ExecutionController.execution_history` (part_008 lines
36-41): `{'step_id', 'timestamp', 'agent', 'response'}`, with the wall-clock
timestamp abstracted to a `Nat` supplied by the caller. -/
structure HistRecord where
  step_id : String
  timestamp : Nat
  agent : String
  response : String
deriving Repr, DecidableEq

/-- Mutable state of an `ExecutionController` instance (part_008 lines
21-29): the controller-lifetime `execution_history` list and the
`step_attempts` dict. -/
structure ECState where
  execution_history : List HistRecord
  step_attempts : List (String × Nat)
deriving Repr, DecidableEq

/-- Embedding of `ExecutionController.__init__`: both containers start
empty; in particular `execution_history` is created once per controller,
not once per step. -/
def ECState.mkInitial : ECState := ⟨[], []⟩

/-- Python dict read `step_attempts.get(step_id, 0)`. -/
def getAttempts (m : List (String × Nat)) (k : String) : Nat :=
  ((m.find? (fun p => p.1 = k)).map Prod.snd).getD 0

/-- Python dict write `step_attempts[step_id] = get(step_id, 0) + 1`
(part_008 line 58). -/
def bumpAttempts (m : List (String × Nat)) (k : String) : List (String × Nat) :=
  if m.any (fun p => p.1 = k) then
    m.map (fun p => if p.1 = k then (p.1, p.2 + 1) else p)
  else m ++ [(k, getAttempts m k + 1)]

/-- The step id computed at part_008 line 33:
`f"{step_info['agent_name']}_{step_info['title']}"`. -/
def stepIdOf (step_info : StepInfo) : String :=
  step_info.agent_name ++ "_" ++ step_info.title

/-- Modelled from the spec: the body of
`ExecutionController._is_repeated_execution` is not in the repository — only
its call site (part_008 line 44) and its intent ("防重复执行检查",
spec §4.1: a re-evaluation of a step that was already evaluated returns the
no-op immediately).  Modelled as: some record written before the current
call carries the same step id and the same response.  It is checked against
the history as it stood before the current call's append, since checking the
just-appended record would flag every call. -/
def is_repeated_execution (prior_history : List HistRecord)
    (step_id : String) (agent_response : String) : Bool :=
  prior_history.any (fun r => r.step_id = step_id && r.response = agent_response)

/-- The fixed result returned on the duplicate-execution path (part_008
lines 45-49). -/
def repeatedExecutionResult : ExecutionResult :=
  ⟨false, "检测到重复执行，跳过此步骤", some "continue_to_next"⟩

/-- Embedding of `ExecutionController.execute_step` (part_008 lines 31-60):
(1) append the call to the controller-lifetime execution history, (2) run
the duplicate-execution check and short-circuit on detection, (3) run the
validator selected by `_get_validator`, (4) bump the attempt counter.  Note
that step (1) happens on every call and no path clears the history, and
that the attempt counter is only bumped on the non-duplicate path. -/
def ExecutionController.execute_step (s : ECState) (step_info : StepInfo)
    (agent_response : String) (now : Nat) : ECState × ExecutionResult :=
  let step_id := stepIdOf step_info
  let hist' := s.execution_history ++
    [⟨step_id, now, step_info.agent_name, agent_response⟩]
  if is_repeated_execution s.execution_history step_id agent_response then
    (⟨hist', s.step_attempts⟩, repeatedExecutionResult)
  else
    let validation_result :=
      runValidator (ExecutionController.get_validator step_info) step_info
        agent_response
    (⟨hist', bumpAttempts s.step_attempts step_id⟩, validation_result)

/-- Validation verdict consumed by `StepExecutionManager.execute_step`
(comprehensive_refactor_plan.md): `validation_result.completed` plus the
evidence passed to the state machine.  The verdict itself is produced by the
`IntelligentValidationEngine`, an LLM/semantic component, so it enters the
embedding as data. -/
structure ValidationResult where
  completed : Bool
  evidence : List String
deriving Repr, DecidableEq

/-- Loop-detection verdict consumed by `StepExecutionManager.execute_step`
(comprehensive_refactor_plan.md): `loop_result.detected`, produced by the
`IntelligentLoopDetector`. -/
structure LoopDetectionResult where
  detected : Bool
deriving Repr, DecidableEq

/-- The three step-5 outcomes of `StepExecutionManager.execute_step`
(comprehensive_refactor_plan.md lines 244-251): approve-and-advance,
`_handle_loop_detection` (body not in the repository, kept as a distinct
outcome), or continue. -/
inductive StepDecision where
  | advance
  | loop_handling
  | continue_step
deriving Repr, DecidableEq

/-- Embedding of the decision logic (steps 3-5) of
`StepExecutionManager.execute_step` (comprehensive_refactor_plan.md lines
226-251): the validation verdict is consulted first — `if
validation_result.completed: ... advance` — and loop detection only drives
the outcome in the `elif` branch, when validation did not report
completion. -/
def StepExecutionManager.decide (validation_result : ValidationResult)
    (loop_result : LoopDetectionResult) : StepDecision :=
  if validation_result.completed then .advance
  else if loop_result.detected then .loop_handling
  else .continue_step

/-- Keyword affinity list of the `web_surfer` capability profile
(part_008 lines 156-160). -/
def web_surfer_keywords : List String := ["访问", "搜索", "浏览", "网站", "te720.com"]

/-- Primary task types of `web_surfer` (part_008 line 157). -/
def web_surfer_primary : List String := ["网站访问", "在线搜索", "信息收集"]

/-- Keyword affinity list of the `image_generator` capability profile
(part_008 lines 161-165). -/
def image_generator_keywords : List String :=
  ["生成", "创建", "绘制", "图像", "图片", "CG", "设计"]

/-- Primary task types of `image_generator` (part_008 line 162). -/
def image_generator_primary : List String := ["图像生成", "视觉创作", "AI绘图"]

/-- Keyword affinity list of the `coder_agent` capability profile
(part_008 lines 166-170). -/
def coder_agent_keywords : List String :=
  ["markdown", "html", "pdf", "文档", "转换", "编程"]

/-- Primary task types of `coder_agent` (part_008 line 167). -/
def coder_agent_primary : List String := ["文档处理", "格式转换", "代码执行"]

/-- Weighted keyword score of one capability profile
(`SmartAgentAllocator.allocate_agent` steps 1-2, part_008 lines 179-192):
2 points per matching keyword, 3 per matching primary task type. -/
def scoreAgent (keywords primary : List String) (text : String) : Nat :=
  (keywords.filter (fun k => pyIn k text)).length * 2 +
    (primary.filter (fun p => pyIn p text)).length * 3

/-- Python `max(scores.items(), key=lambda x: x[1])`: the first maximal
entry in iteration order (later entries replace the current best only on a
strictly greater score). -/
def pyMaxBySnd : List (String × Nat) → String × Nat
  | [] => ("", 0)
  | x :: xs => xs.foldl (fun best cur => if best.2 < cur.2 then cur else best) x

/-- The combined lower-cased text scored by the allocator (part_008 lines
175-177): `f"{step_title} {step_details}"` after `.lower()` on both. -/
def combinedText (step_info : StepInfo) : String :=
  pyLower step_info.title ++ " " ++ pyLower step_info.details

/-- The first hard override rule of `allocate_agent` (part_008 lines
195-197): a generation word together with an image word routes to
`image_generator`.  Note that the `'CG'` entry is compared against the
already lower-cased text, so it can never match. -/
def imageOverrideTrigger (text : String) : Bool :=
  anyIn ["生成", "创建", "绘制", "图像", "CG"] text &&
    (pyIn "图像" text || pyIn "image" text)

/-- Embedding of `SmartAgentAllocator.allocate_agent` (part_008 lines
173-207): keyword scoring over the three capability profiles in dict
insertion order, then the three hard override rules in order, then the
highest-scoring agent with `coder_agent` as the zero-score fallback. -/
def SmartAgentAllocator.allocate_agent (step_info : StepInfo) : String :=
  let combined_text := combinedText step_info
  let scores : List (String × Nat) :=
    [("web_surfer", scoreAgent web_surfer_keywords web_surfer_primary combined_text),
     ("image_generator",
       scoreAgent image_generator_keywords image_generator_primary combined_text),
     ("coder_agent", scoreAgent coder_agent_keywords coder_agent_primary combined_text)]
  if imageOverrideTrigger combined_text then "image_generator"
  else if anyIn ["访问", "搜索", "te720", "网站"] combined_text then "web_surfer"
  else if anyIn ["markdown", "html", "pdf", "转换"] combined_text then "coder_agent"
  else
    let best := pyMaxBySnd scores
    if 0 < best.2 then best.1 else "coder_agent"

/-- WebSurfer recovery/completion signals recognized by the orchestrator's
`_is_step_truly_complete` (workflow_fixes_summary.md, quoted fragment). -/
def websurfer_recovery_signals : List String :=
  ["研究任务基本完成", "已成功访问te720.com", "收集到足够的产品信息",
   "页面导航正常", "已完成的操作", "虽然遇到截图超时",
   "✅ 当前步骤已完成", "当前步骤已完成", "已成功访问", "已收集到足够的信息"]

/-- WebSurfer behaviour patterns recognized by `_is_step_truly_complete`
(workflow_fixes_summary.md, quoted fragment). -/
def websurfer_action_patterns : List String :=
  ["hovered over", "clicked", "visited", "accessed", "navigated",
   "悬停", "点击", "访问", "导航", "浏览", "action:", "observation:"]

/-- Product-content indicators of `_is_step_truly_complete`
(workflow_fixes_summary.md, quoted fragment). -/
def product_indicators : List String :=
  ["360", "camera", "全景", "teche", "product", "产品"]

/-- Embedding of the quoted fragment of the orchestrator's
`_is_step_truly_complete` (workflow_fixes_summary.md "修复2"): the method
returns true when the lower-cased response carries a WebSurfer
recovery/completion signal, and also — the quoted `return True` — when it
shows a WebSurfer behaviour pattern together with product-related content.
The document lists further checks of the full method (strict incompletion
signals, generic help replies) that reject before these accept; they are
not quoted in the repository, so this embeds exactly the two quoted
sufficient conditions, which responses free of those reject patterns reach. -/
def is_step_truly_complete (agent_response : String) : Bool :=
  let agent_response_lower := pyLower agent_response
  if anyIn websurfer_recovery_signals agent_response_lower then true
  else
    let has_websurfer_actions := anyIn websurfer_action_patterns agent_response_lower
    let has_product_content := anyIn product_indicators agent_response_lower
    has_websurfer_actions && has_product_content

/-- The forced-completion message the WebSurfer emits when
`_detect_loop_before_action` fires (workflow_fixes_summary.md "修复1"). -/
def loopForcedCompletionMessage : String :=
  "✅ 当前步骤已完成：已成功访问te720.com全景相机官网。虽然检测到重复操作，但已收集到足够的产品信息用于后续图像生成。避免进一步的重复浏览以提高效率。"

/-- One entry of the boundary configuration (part_006): per-category
resource limits consumed by `ConfigDrivenBoundaryController.setup_boundaries`
(comprehensive_refactor_plan.md lines 283-295). -/
structure BoundaryLimits where
  max_actions : Nat
  time_limit : Nat
  success_criteria : List String
  stop_conditions : List String
  autonomous_mode : Bool
  approval_threshold : String
deriving Repr, DecidableEq

/-- The `default` entry of `task_boundaries` (part_006 lines 62-71). -/
def default_boundary : BoundaryLimits :=
  ⟨3, 150, ["任务完成"], ["执行错误"], true, "normal"⟩

/-- Embedding of the `task_boundaries` table of the shipped boundary
configuration (part_006 lines 3-71), in file order. -/
def task_boundaries : List (String × BoundaryLimits) :=
  [("web_research",
     ⟨4, 180, ["找到产品信息", "获取技术规格", "收集价格信息", "访问成功"],
      ["访问被阻止", "页面加载失败", "找不到相关信息"], true, "low"⟩),
   ("image_generation",
     ⟨2, 60, ["图像生成完成", "图像质量满足要求", "生成任务已完成"],
      ["API调用失败", "生成内容不当", "图像生成错误"], true, "never"⟩),
   ("document_creation",
     ⟨3, 120, ["文档创建完成", "内容格式正确", "保存成功"],
      ["文件保存失败", "格式转换错误"], true, "low"⟩),
   ("code_execution",
     ⟨5, 300, ["代码执行成功", "输出结果正确"],
      ["代码执行错误", "安全风险检测"], false, "high"⟩),
   ("default", default_boundary)]

/-- Embedding of the boundary lookup
`self.config.get(task_type, self.config['default'])` performed by
`ConfigDrivenBoundaryController.setup_boundaries`
(comprehensive_refactor_plan.md line 287) over the shipped configuration
(part_006): a pure total lookup with the `default` entry as fallback. -/
def BoundaryController.limitsFor (task_type : String) : BoundaryLimits :=
  ((task_boundaries.find? (fun p => p.1 = task_type)).map Prod.snd).getD
    default_boundary

/-- Modelled from the spec: no `LoopDetector` implementation appears in the
repository — only prompt-level rules ("NEVER repeat the same action more
than ONCE", part_007 lines 66-71) and the contract of spec §4.3.  The
configuration carries the configurable repeat threshold (default 1 repeat =
loop) and the rolling progress window size (default 5). -/
structure LoopDetectorConfig where
  repeatThreshold : Nat
  progressWindow : Nat
deriving Repr, DecidableEq

/-- Modelled from the spec: the default `LoopDetector` configuration of
spec §4.3 — threshold 1 repeat, window 5. -/
def LoopDetector.defaultConfig : LoopDetectorConfig := ⟨1, 5⟩

/-- Modelled from the spec: the result of `LoopDetector.detect`
(spec §4.3 contract `{loopDetected, pattern, recommendation}`); the
`pattern` field reports a signature that repeated, when one did. -/
structure LoopDetectResult where
  loopDetected : Bool
  pattern : Option String
deriving Repr, DecidableEq

/-- Modelled from the spec: the signature-repetition rule of spec §4.3 — a
loop is flagged when some action signature of the current step attempt
occurs more than `repeatThreshold` times.  The independent no-new-progress
disjunct of §4.3 needs the workers' progress signals and is not part of any
claim, so it is not modelled; being a disjunct, adding it could only flag
more sequences. -/
def LoopDetector.detect (cfg : LoopDetectorConfig)
    (actionHistory : List String) : LoopDetectResult :=
  ⟨actionHistory.any (fun a => cfg.repeatThreshold < actionHistory.count a),
   actionHistory.find? (fun a => cfg.repeatThreshold < actionHistory.count a)⟩

/-- Step statuses of the orchestrator's `step_execution_status` map
(part_009 lines 148-149). -/
inductive StepStatus where
  | not_started
  | in_progress
  | completed
  | failed
  | skipped
deriving Repr, DecidableEq

/-- Modelled from the spec: `_orchestrator.py` itself is not among the
repository's source documents; part_009 (CLAUDE.md) lines 147-151 document
its state — `current_step_idx` tracking progress, `step_execution_status`
mapping step indices to execution states, and "Step index is only
incremented in one location to prevent duplicate progression". -/
structure OrchestratorState where
  current_step_idx : Nat
  step_execution_status : List (Nat × StepStatus)
deriving Repr, DecidableEq

/-- Status-map write with Python dict semantics. -/
def setStatus (m : List (Nat × StepStatus)) (k : Nat) (v : StepStatus) :
    List (Nat × StepStatus) :=
  if m.any (fun p => p.1 = k) then
    m.map (fun p => if p.1 = k then (p.1, v) else p)
  else m ++ [(k, v)]

/-- Modelled from the spec: the orchestrator-level events of the per-step
state machine of spec §4.1/§4.6 — dispatching the current step, retrying
it, completing it on validator approval, failing it, skipping it. -/
inductive OrchestratorEvent where
  | startStep
  | retryStep
  | completeStep
  | failStep
  | skipStep
deriving Repr, DecidableEq

/-- Modelled from the spec: the single-location advancement discipline
documented in part_009 lines 150-151 and spec §4.1 — the `completed`
transition is the one code path that increments `current_step_idx`, and it
increments it by exactly one; every other event leaves the index
untouched. -/
def orchestratorStep (s : OrchestratorState) : OrchestratorEvent → OrchestratorState
  | .startStep =>
      ⟨s.current_step_idx,
       setStatus s.step_execution_status s.current_step_idx .in_progress⟩
  | .retryStep =>
      ⟨s.current_step_idx,
       setStatus s.step_execution_status s.current_step_idx .in_progress⟩
  | .completeStep =>
      ⟨s.current_step_idx + 1,
       setStatus s.step_execution_status s.current_step_idx .completed⟩
  | .failStep =>
      ⟨s.current_step_idx,
       setStatus s.step_execution_status s.current_step_idx .failed⟩
  | .skipStep =>
      ⟨s.current_step_idx,
       setStatus s.step_execution_status s.current_step_idx .skipped⟩

/-- Execution trace of the modelled orchestrator: the fold of
`orchestratorStep` over a list of events. -/
def runOrchestrator (s : OrchestratorState) (tr : List OrchestratorEvent) :
    OrchestratorState :=
  tr.foldl orchestratorStep s

/-- Each single orchestrator event leaves `current_step_idx` unchanged or
increments it. -/
theorem orchestratorStep_idx_mono (s : OrchestratorState) (e : OrchestratorEvent) :
    s.current_step_idx ≤ (orchestratorStep s e).current_step_idx := by
  cases e <;> simp [orchestratorStep]

/-- Over any event trace, `current_step_idx` never decreases. -/
theorem runOrchestrator_idx_mono (s : OrchestratorState)
    (tr : List OrchestratorEvent) :
    s.current_step_idx ≤ (runOrchestrator s tr).current_step_idx := by
  induction tr generalizing s with
  | nil => exact Nat.le_refl _
  | cons e tr ih =>
      exact Nat.le_trans (orchestratorStep_idx_mono s e)
        (ih (orchestratorStep s e))

/-- C1: over every execution trace of the modelled orchestrator,
`current_step_idx` is non-decreasing; the `completed` transition is the one
event that increments it, and it increments it by exactly one, so no step
index is skipped; every other event leaves it unchanged. -/
theorem c1_current_step_idx_discipline (s : OrchestratorState)
    (tr : List OrchestratorEvent) (e : OrchestratorEvent)
    (h : e ≠ OrchestratorEvent.completeStep) :
    s.current_step_idx ≤ (runOrchestrator s tr).current_step_idx
    ∧ (orchestratorStep s .completeStep).current_step_idx = s.current_step_idx + 1
    ∧ (orchestratorStep s e).current_step_idx = s.current_step_idx := by
  refine ⟨runOrchestrator_idx_mono s tr, rfl, ?_⟩
  cases e
  · rfl
  · rfl
  · exact absurd rfl h
  · rfl
  · rfl

/-- Witness for C1 at a concrete two-step trace. -/
theorem c1_current_step_idx_discipline_witness :
    (⟨0, []⟩ : OrchestratorState).current_step_idx ≤
      (runOrchestrator ⟨0, []⟩
        [.startStep, .completeStep, .startStep, .completeStep]).current_step_idx
    ∧ (orchestratorStep ⟨0, []⟩ .completeStep).current_step_idx = 0 + 1
    ∧ (orchestratorStep ⟨0, []⟩ .retryStep).current_step_idx = 0 :=
  c1_current_step_idx_discipline ⟨0, []⟩
    [.startStep, .completeStep, .startStep, .completeStep] .retryStep (by decide)

/-- C2: evaluation of the code at the failing input.  Running
`ExecutionController.execute_step` on a web-research step and then on the
following image-generation step leaves the record of the first step in
`execution_history` while the second step is evaluated: the history is a
controller-lifetime list that no code path clears on a new step start, so
the step-scoped-history invariant claimed by the spec is violated by the
source. -/
theorem c2_history_not_cleared_on_new_step :
    ((ExecutionController.execute_step
        (ExecutionController.execute_step ECState.mkInitial
          ⟨"web_surfer", "研究任务", "访问te720.com收集产品信息"⟩
          "✅ 任务已完成：产品规格已收集" 0).1
        ⟨"image_generator", "图像生成", "生成图像"⟩
        "图像已成功生成 image.png" 1).1.execution_history.map HistRecord.step_id)
      = ["web_surfer_研究任务", "image_generator_图像生成"] := by decide

/-- C3 counterexample: in `StepExecutionManager.execute_step` a detected
loop does not short-circuit validation — the decision consults
`validation_result.completed` first, so a response flagged as a loop and
simultaneously judged complete on content grounds is approved and the step
advances, contradicting the claim at this explicit input. -/
theorem c3_loop_does_not_short_circuit_validation :
    StepExecutionManager.decide ⟨true, ["关键词证据"]⟩ ⟨true⟩
      = StepDecision.advance := by decide

/-- C3 amended: the short-circuit holds on the `ExecutionController` path —
a detected duplicate execution returns the fixed repeat result before any
validator runs — while on the `StepExecutionManager` path loop detection
drives the decision only when validation did not report completion. -/
theorem c3_loop_precedence_amended (s : ECState) (step_info : StepInfo)
    (agent_response : String) (now : Nat) (v : ValidationResult)
    (l : LoopDetectionResult)
    (h1 : is_repeated_execution s.execution_history (stepIdOf step_info)
      agent_response = true)
    (h2 : v.completed = false) (h3 : l.detected = true) :
    (ExecutionController.execute_step s step_info agent_response now).2
      = repeatedExecutionResult
    ∧ StepExecutionManager.decide v l = StepDecision.loop_handling := by
  constructor
  · simp [ExecutionController.execute_step, h1]
  · simp [StepExecutionManager.decide, h2, h3]

/-- Witness for the amended C3 at a concrete duplicated step and a concrete
loop-detected, not-validated verdict pair. -/
theorem c3_loop_precedence_amended_witness :
    (ExecutionController.execute_step
        ⟨[⟨"web_surfer_研究任务", 0, "web_surfer", "✅ 任务已完成：产品规格已收集"⟩], []⟩
        ⟨"web_surfer", "研究任务", "访问te720.com收集产品信息"⟩
        "✅ 任务已完成：产品规格已收集" 1).2 = repeatedExecutionResult
    ∧ StepExecutionManager.decide ⟨false, []⟩ ⟨true⟩ = StepDecision.loop_handling :=
  c3_loop_precedence_amended
    ⟨[⟨"web_surfer_研究任务", 0, "web_surfer", "✅ 任务已完成：产品规格已收集"⟩], []⟩
    ⟨"web_surfer", "研究任务", "访问te720.com收集产品信息"⟩
    "✅ 任务已完成：产品规格已收集" 1 ⟨false, []⟩ ⟨true⟩ (by decide) rfl rfl

/-- C4 counterexample: re-running `execute_step` on a step whose first run
was approved (completed) does not return the first call's result again and
does mutate the controller state — the unconditional history append at the
top of `execute_step` records the second call too, so the second call is
not a mutation-free no-op. -/
theorem c4_second_call_mutates_history :
    ((ExecutionController.execute_step ECState.mkInitial
        ⟨"web_surfer", "研究任务", "访问te720.com收集产品信息"⟩
        "✅ 任务已完成：产品规格已收集" 0).2.success = true)
    ∧ (ExecutionController.execute_step
        (ExecutionController.execute_step ECState.mkInitial
          ⟨"web_surfer", "研究任务", "访问te720.com收集产品信息"⟩
          "✅ 任务已完成：产品规格已收集" 0).1
        ⟨"web_surfer", "研究任务", "访问te720.com收集产品信息"⟩
        "✅ 任务已完成：产品规格已收集" 1).2
      ≠ (ExecutionController.execute_step ECState.mkInitial
          ⟨"web_surfer", "研究任务", "访问te720.com收集产品信息"⟩
          "✅ 任务已完成：产品规格已收集" 0).2
    ∧ (ExecutionController.execute_step
        (ExecutionController.execute_step ECState.mkInitial
          ⟨"web_surfer", "研究任务", "访问te720.com收集产品信息"⟩
          "✅ 任务已完成：产品规格已收集" 0).1
        ⟨"web_surfer", "研究任务", "访问te720.com收集产品信息"⟩
        "✅ 任务已完成：产品规格已收集" 1).1.execution_history.length = 2 := by
  decide

/-- C4 amended: a repeated invocation on an already-evaluated step does
short-circuit — it returns the fixed duplicate-execution result (not the
first call's success result) without running a validator and without
touching the attempt counters — but it still appends one more record to the
controller-lifetime execution history. -/
theorem c4_repeat_call_short_circuits_but_appends (s : ECState)
    (step_info : StepInfo) (agent_response : String) (now : Nat)
    (h : is_repeated_execution s.execution_history (stepIdOf step_info)
      agent_response = true) :
    (ExecutionController.execute_step s step_info agent_response now).2
      = repeatedExecutionResult
    ∧ (ExecutionController.execute_step s step_info agent_response now).1.step_attempts
      = s.step_attempts
    ∧ (ExecutionController.execute_step s step_info agent_response now).1.execution_history
      = s.execution_history ++
        [⟨stepIdOf step_info, now, step_info.agent_name, agent_response⟩] := by
  refine ⟨?_, ?_, ?_⟩ <;> simp [ExecutionController.execute_step, h]

/-- Witness for the amended C4 at a concrete already-evaluated step. -/
theorem c4_repeat_call_short_circuits_but_appends_witness :
    (ExecutionController.execute_step
        ⟨[⟨"web_surfer_研究任务", 0, "web_surfer", "✅ 任务已完成：产品规格已收集"⟩],
          [("web_surfer_研究任务", 1)]⟩
        ⟨"web_surfer", "研究任务", "访问te720.com收集产品信息"⟩
        "✅ 任务已完成：产品规格已收集" 1).2 = repeatedExecutionResult
    ∧ (ExecutionController.execute_step
        ⟨[⟨"web_surfer_研究任务", 0, "web_surfer", "✅ 任务已完成：产品规格已收集"⟩],
          [("web_surfer_研究任务", 1)]⟩
        ⟨"web_surfer", "研究任务", "访问te720.com收集产品信息"⟩
        "✅ 任务已完成：产品规格已收集" 1).1.step_attempts
      = [("web_surfer_研究任务", 1)]
    ∧ (ExecutionController.execute_step
        ⟨[⟨"web_surfer_研究任务", 0, "web_surfer", "✅ 任务已完成：产品规格已收集"⟩],
          [("web_surfer_研究任务", 1)]⟩
        ⟨"web_surfer", "研究任务", "访问te720.com收集产品信息"⟩
        "✅ 任务已完成：产品规格已收集" 1).1.execution_history
      = [⟨"web_surfer_研究任务", 0, "web_surfer", "✅ 任务已完成：产品规格已收集"⟩,
         ⟨"web_surfer_研究任务", 1, "web_surfer", "✅ 任务已完成：产品规格已收集"⟩] :=
  c4_repeat_call_short_circuits_but_appends
    ⟨[⟨"web_surfer_研究任务", 0, "web_surfer", "✅ 任务已完成：产品规格已收集"⟩],
      [("web_surfer_研究任务", 1)]⟩
    ⟨"web_surfer", "研究任务", "访问te720.com收集产品信息"⟩
    "✅ 任务已完成：产品规格已收集" 1 (by decide)

/-- C5 counterexample: a response that matches the generic/deflecting
pattern set ("我理解您需要") and is far below any informativeness threshold is
nevertheless approved by `WebSearchValidator.validate_completion`, because
the signal-and-info approval check runs before the generic-pattern check
and the validator contains no minimum-length check at all. -/
theorem c5_generic_short_response_approved :
    anyIn generic_responses "我理解您需要帮助，✅ 任务已完成：产品信息如下" = true
    ∧ ("我理解您需要帮助，✅ 任务已完成：产品信息如下" : String).length < 50
    ∧ (WebSearchValidator.validate_completion
        ⟨"web_surfer", "研究任务", "访问te720.com"⟩
        "我理解您需要帮助，✅ 任务已完成：产品信息如下").success = true := by decide

/-- C5 amended: `WebSearchValidator.validate_completion` rejects a
generic/deflecting response — even one containing step-relevant info
keywords — only as long as the response carries no completion-signal
phrase; there is no minimum-length check, and a generic response that
carries both a completion signal and an info keyword is approved. -/
theorem c5_generic_without_signal_rejected (step_info : StepInfo)
    (agent_response : String)
    (hg : anyIn generic_responses agent_response = true)
    (hs : anyIn completion_signals agent_response = false) :
    (WebSearchValidator.validate_completion step_info agent_response).success
      = false := by
  simp [WebSearchValidator.validate_completion, hs, hg]

/-- Witness for the amended C5: a generic reply that contains the
step-relevant keywords 产品/相机/规格 but no completion signal is rejected. -/
theorem c5_generic_without_signal_rejected_witness :
    (WebSearchValidator.validate_completion
      ⟨"web_surfer", "研究任务", "访问te720.com"⟩
      "我理解您需要产品、相机与规格信息").success = false :=
  c5_generic_without_signal_rejected
    ⟨"web_surfer", "研究任务", "访问te720.com"⟩
    "我理解您需要产品、相机与规格信息" (by decide) (by decide)

/-- C6: under the default configuration (repeat threshold = 1), the
modelled `LoopDetector.detect` flags every action sequence of a step
attempt in which the same action signature occurs at least twice. -/
theorem c6_double_signature_flags_loop (actionHistory : List String)
    (a : String) (h : 2 ≤ actionHistory.count a) :
    (LoopDetector.detect LoopDetector.defaultConfig
      actionHistory).loopDetected = true := by
  simp [LoopDetector.detect, LoopDetector.defaultConfig, List.any_eq_true]
  exact ⟨a, List.count_pos_iff.mp (by omega), by omega⟩

/-- Witness for C6 at a two-element history repeating one signature. -/
theorem c6_double_signature_flags_loop_witness :
    2 ≤ List.count "click_link" ["click_link", "click_link"]
    ∧ (LoopDetector.detect LoopDetector.defaultConfig
        ["click_link", "click_link"]).loopDetected = true :=
  ⟨by decide, c6_double_signature_flags_loop ["click_link", "click_link"]
    "click_link" (by decide)⟩

/-- C7 counterexample: the instruction "generate an image" — the spec's own
example of the image-generation override trigger — is routed to
`coder_agent`, not to `image_generator`: the override's outer condition
only matches the Chinese generation words (its `'CG'` entry cannot match
the lower-cased text), every keyword score is 0, and the zero-score
fallback is `coder_agent`. -/
theorem c7_generate_an_image_not_routed_to_image_generator :
    SmartAgentAllocator.allocate_agent ⟨"", "generate an image", ""⟩
      = "coder_agent"
    ∧ SmartAgentAllocator.allocate_agent ⟨"", "generate an image", ""⟩
      ≠ "image_generator" := by decide

/-- C7 amended: the override trigger actually implemented is — one of
生成/创建/绘制/图像 present in the lower-cased title-plus-details text together
with 图像 or "image" — and every instruction matching that trigger is routed
to `image_generator` regardless of competing keyword scores or
document-related words; the bare English phrase "generate an image" does
not match the trigger and falls through to the default. -/
theorem c7_image_override_precedence (step_info : StepInfo)
    (h : imageOverrideTrigger (combinedText step_info) = true) :
    SmartAgentAllocator.allocate_agent step_info = "image_generator" := by
  simp [SmartAgentAllocator.allocate_agent, h]

/-- Witness for the amended C7: an instruction containing the trigger words
together with strong document keywords (markdown, 文档, pdf) still routes to
`image_generator`. -/
theorem c7_image_override_precedence_witness :
    imageOverrideTrigger
      (combinedText ⟨"", "生成图像", "创建 markdown 文档并转换为 pdf"⟩) = true
    ∧ SmartAgentAllocator.allocate_agent
      ⟨"", "生成图像", "创建 markdown 文档并转换为 pdf"⟩ = "image_generator" :=
  ⟨by decide, c7_image_override_precedence
    ⟨"", "生成图像", "创建 markdown 文档并转换为 pdf"⟩ (by decide)⟩

/-- C8 counterexample: a response with no completion signal that
`WebSearchValidator` rejects is nevertheless judged truly complete by the
orchestrator's `_is_step_truly_complete` behaviour-pattern heuristic
(a WebSurfer action pattern together with product content), and the
loop-detection forced-completion message emitted by the WebSurfer is also
recognized as completion — so steps reach `completed` through paths other
than the validator's explicit approval. -/
theorem c8_completed_without_validator_approval :
    is_step_truly_complete "clicked on the 360 camera product page" = true
    ∧ anyIn completion_signals "clicked on the 360 camera product page" = false
    ∧ (WebSearchValidator.validate_completion
        ⟨"web_surfer", "研究任务", "访问te720.com"⟩
        "clicked on the 360 camera product page").success = false
    ∧ is_step_truly_complete loopForcedCompletionMessage = true := by decide

/-- C8 amended: `_is_step_truly_complete` accepts — besides validator-style
signals — every response whose lower-cased text shows a WebSurfer behaviour
pattern together with product-related content, and it accepts the
loop-forced completion message; completion is therefore not exclusively the
validator's explicit approval. -/
theorem c8_behaviour_heuristic_completes (agent_response : String)
    (h1 : anyIn websurfer_action_patterns (pyLower agent_response) = true)
    (h2 : anyIn product_indicators (pyLower agent_response) = true) :
    is_step_truly_complete agent_response = true := by
  simp [is_step_truly_complete, h1, h2]

/-- Witness for the amended C8 at a concrete action-pattern response. -/
theorem c8_behaviour_heuristic_completes_witness :
    is_step_truly_complete "visited the TECHE product overview" = true :=
  c8_behaviour_heuristic_completes "visited the TECHE product overview"
    (by decide) (by decide)

/-- C9: `BoundaryController.limitsFor` is a total pure lookup — every
category not present in the shipped configuration gets the `default`
entry's limits, the `default` entry is max_actions 3, time_limit 150,
autonomous_mode true, and equal categories always get equal limits. -/
theorem c9_limits_lookup_total_with_default (c c1 c2 : String)
    (h : task_boundaries.find? (fun p => p.1 = c) = none) (he : c1 = c2) :
    BoundaryController.limitsFor c = default_boundary
    ∧ default_boundary
      = ⟨3, 150, ["任务完成"], ["执行错误"], true, "normal"⟩
    ∧ BoundaryController.limitsFor c1 = BoundaryController.limitsFor c2 := by
  refine ⟨?_, rfl, by rw [he]⟩
  simp [BoundaryController.limitsFor, h]

/-- Witness for C9 at a category absent from the configuration. -/
theorem c9_limits_lookup_total_with_default_witness :
    BoundaryController.limitsFor "图表绘制" = default_boundary
    ∧ default_boundary
      = ⟨3, 150, ["任务完成"], ["执行错误"], true, "normal"⟩
    ∧ BoundaryController.limitsFor "web_research"
      = BoundaryController.limitsFor "web_research" :=
  c9_limits_lookup_total_with_default "图表绘制" "web_research" "web_research"
    (by decide) rfl

/-- C10: `ImageGenerationValidator.validate_completion` approves every
response containing an image-file indicator, with or without a completion
signal — the approval condition is the disjunction of the two checks. -/
theorem c10_image_reference_suffices (step_info : StepInfo)
    (agent_response : String)
    (h : anyIn image_indicators agent_response = true) :
    (ImageGenerationValidator.validate_completion step_info
      agent_response).success = true := by
  simp [ImageGenerationValidator.validate_completion, h]

/-- Witness for C10: the bare four-character response ".png" — no
completion signal, arbitrarily short — is approved. -/
theorem c10_image_reference_suffices_witness :
    anyIn image_completion_signals ".png" = false
    ∧ (ImageGenerationValidator.validate_completion
        ⟨"image_generator", "图像生成", "生成图像"⟩ ".png").success = true :=
  ⟨by decide, c10_image_reference_suffices
    ⟨"image_generator", "图像生成", "生成图像"⟩ ".png" (by decide)⟩

end MagenticUI
